import Mathlib

/-!
Shallow embedding of the StreamVLM frontend streaming-orchestration layer:
the zustand application store (`src/store.ts` region of `services/api.ts`),
the `WebSocketService` transport, the `ApiService` fetch surface, the
`App` orchestrator handlers, and the `useCamera` capture hook.
Definitions are translated from the TypeScript source; theorems settle the
frozen claims about them.
-/

namespace StreamVLM

/-- Temporal context payload returned by the service.  The frontend treats
it opaquely (stored and replaced wholesale); we model it as the pair of
fields the spec gives it: a bounded sequence of recent responses and a
last-update stamp. -/
structure TemporalContext where
  recent_responses : List String
  last_update : String
  deriving DecidableEq, Repr

/-- FrameData record appended to the store history, with the fields built
by the `vlm_response` handler in `App`. -/
structure FrameData where
  timestamp : String
  frame_id : String
  response : String
  model : String
  processing_time : Int
  prompt : String
  detected_objects : List String
  temporal_context : Option TemporalContext
  deriving DecidableEq, Repr

/-- AppSettings as initialised by `defaultSettings` in the store. -/
structure AppSettings where
  selectedModel : String
  summaryModel : String
  prompt : String
  maxTokens : Nat
  temperature : Rat
  delaySeconds : Nat
  useTemporalContext : Bool
  autoStart : Bool
  contextWindow : Nat
  summaryWindow : Nat
  deriving DecidableEq, Repr

/-- CameraSettings from the store defaults. -/
structure CameraSettings where
  width : Nat
  height : Nat
  frameRate : Nat
  deriving DecidableEq, Repr

/-- A VLM model entry as listed by the backend; opaque to the claims. -/
structure VLMModel where
  name : String
  deriving DecidableEq, Repr

/-- Session statistics payload; opaque to the claims. -/
structure SessionStats where
  frame_count : Nat
  deriving DecidableEq, Repr

/-- The zustand store state (`AppState` in the source), with every field
of the interface. -/
structure AppState where
  settings : AppSettings
  cameraSettings : CameraSettings
  availableModels : List VLMModel
  currentSession : Option String
  frameHistory : List FrameData
  sessionStats : Option SessionStats
  temporalContext : Option TemporalContext
  currentResponse : Option String
  detectedObjects : List String
  generalSummary : Option String
  isConnected : Bool
  isProcessing : Bool
  isStreaming : Bool
  error : Option String
  deriving DecidableEq, Repr

/-- `defaultSettings` from the store. -/
def defaultSettings : AppSettings :=
  { selectedModel := "gemini-1.5-flash"
    summaryModel := "gemini-2.0-flash"
    prompt := "What do you see in this image?"
    maxTokens := 300
    temperature := 7 / 10
    delaySeconds := 2
    useTemporalContext := true
    autoStart := false
    contextWindow := 10
    summaryWindow := 10 }

/-- `defaultCameraSettings` from the store. -/
def defaultCameraSettings : CameraSettings :=
  { width := 640, height := 480, frameRate := 30 }

/-- The initial store state passed to `create` in the source. -/
def initialState : AppState :=
  { settings := defaultSettings
    cameraSettings := defaultCameraSettings
    availableModels := []
    currentSession := none
    frameHistory := []
    sessionStats := none
    temporalContext := none
    currentResponse := none
    detectedObjects := []
    generalSummary := none
    isConnected := false
    isProcessing := false
    isStreaming := false
    error := none }

/-- JavaScript `Array.prototype.slice(-n)`: the last `n` elements of the
array (the whole array when it is shorter than `n`). -/
def sliceLast (n : Nat) (l : List α) : List α :=
  l.drop (l.length - n)

/-- Store action `addFrame`: `frameHistory: [...state.frameHistory, frame].slice(-50)`. -/
def addFrame (s : AppState) (frame : FrameData) : AppState :=
  { s with frameHistory := sliceLast 50 (s.frameHistory ++ [frame]) }

/-- Store action `clearFrameHistory`. -/
def clearFrameHistory (s : AppState) : AppState :=
  { s with frameHistory := [] }

/-- Store action `setSessionStats`. -/
def setSessionStats (stats : Option SessionStats) (s : AppState) : AppState :=
  { s with sessionStats := stats }

/-- Store action `setTemporalContext`. -/
def setTemporalContext (context : Option TemporalContext) (s : AppState) : AppState :=
  { s with temporalContext := context }

/-- Store action `setCurrentSession`. -/
def setCurrentSession (sessionId : Option String) (s : AppState) : AppState :=
  { s with currentSession := sessionId }

/-- Store action `setConnectionStatus`. -/
def setConnectionStatus (connected : Bool) (s : AppState) : AppState :=
  { s with isConnected := connected }

/-- Store action `setProcessingStatus`. -/
def setProcessingStatus (processing : Bool) (s : AppState) : AppState :=
  { s with isProcessing := processing }

/-- Store action `setStreamingStatus`. -/
def setStreamingStatus (streaming : Bool) (s : AppState) : AppState :=
  { s with isStreaming := streaming }

/-- Store action `setError`. -/
def setError (e : Option String) (s : AppState) : AppState :=
  { s with error := e }

/-- Orchestrator command `handleStopAnalysis` in `App`:
`setStreamingStatus(false); setProcessingStatus(false)`. -/
def handleStopAnalysis (s : AppState) : AppState :=
  setProcessingStatus false (setStreamingStatus false s)

/-- Orchestrator command `handleClearHistory` in `App`:
`clearFrameHistory(); setTemporalContext(null); setSessionStats(null)`. -/
def handleClearHistory (s : AppState) : AppState :=
  setSessionStats none (setTemporalContext none (clearFrameHistory s))

/-- Payload of an inbound `vlm_response` message, with the fields the
handler in `App` reads off `data`.  `error` is optional on the wire. -/
structure VlmResponseData where
  success : Bool
  frame_id : String
  response : String
  model : String
  processing_time : Int
  prompt : String
  temporal_context : Option TemporalContext
  error : Option String
  deriving DecidableEq, Repr

/-- JavaScript `a || b` on an optional string `a`: the fallback `b` is
used when `a` is absent or empty (the empty string is falsy). -/
def jsOrString (a : Option String) (b : String) : String :=
  match a with
  | none => b
  | some s => if s = "" then b else s

/-- The FrameData record the `vlm_response` handler builds on success
(`timestamp: new Date().toISOString()` is passed in as `now`;
`detected_objects` is the literal empty array). -/
def frameOfResponse (now : String) (d : VlmResponseData) : FrameData :=
  { timestamp := now
    frame_id := d.frame_id
    response := d.response
    model := d.model
    processing_time := d.processing_time
    prompt := d.prompt
    detected_objects := []
    temporal_context := d.temporal_context }

/-- The `vlm_response` handler registered in `App`: on success, `addFrame`
then `setTemporalContext(data.temporal_context)`; otherwise
`setError(data.error || 'VLM query failed')`; in both cases
`setProcessingStatus(false)` afterwards. -/
def handleVlmResponse (now : String) (d : VlmResponseData) (s : AppState) : AppState :=
  let s1 :=
    if d.success then
      setTemporalContext d.temporal_context (addFrame s (frameOfResponse now d))
    else
      setError (some (jsOrString d.error "VLM query failed")) s
  setProcessingStatus false s1

/-! Capture pacer trace model.  The streaming `useEffect` in `App`
installs an interval whose callback checks `!isProcessing && wsRef.current`,
calls `captureFrame()`, and if a frame came back runs
`setProcessingStatus(true)` and then `wsRef.current.queryVLM(...)`.
A trace is a sequence of pacer ticks (each tick carries whether the
transport reference is present and what `captureFrame` returned) and
inbound `vlm_response` messages.  `outstanding` is the ghost count of
`vlm_query` messages sent and not yet answered. -/

/-- One event of a streaming trace: a pacer interval tick, or an inbound
`vlm_response`. -/
inductive StreamEvent where
  | tick (wsPresent : Bool) (frame : Option String)
  | response (now : String) (d : VlmResponseData)
  deriving DecidableEq, Repr

/-- The interval callback of the streaming `useEffect`, as a function of
the store state: returns the new state and whether a `vlm_query` was sent.
The in-flight flag is set (via `setProcessingStatus(true)`) before the
send happens. -/
def pacerTick (wsPresent : Bool) (frame : Option String) (s : AppState) :
    AppState × Bool :=
  if !s.isProcessing && wsPresent then
    match frame with
    | some _ => (setProcessingStatus true s, true)
    | none => (s, false)
  else
    (s, false)

/-- One step of the streaming trace over the store state paired with the
ghost count of outstanding (sent, unanswered) queries.  A tick that sends
increments the count; a `vlm_response` answers the outstanding query and
decrements it. -/
def traceStep : AppState × Nat → StreamEvent → AppState × Nat
  | (s, out), .tick wsPresent frame =>
      let (s1, sent) := pacerTick wsPresent frame s
      (s1, if sent then out + 1 else out)
  | (s, out), .response now d => (handleVlmResponse now d s, out - 1)

/-- Run a streaming trace from a state. -/
def runTrace (init : AppState × Nat) (events : List StreamEvent) : AppState × Nat :=
  events.foldl traceStep init

/-! Transport channel: `WebSocketService` in `services/websocket.ts`.
A `WSHandle` stands for one `WebSocket` object ever constructed; its
`closed` flag records whether `close()` was called on that object.  The
service keeps the ghost list of all handles so that what happens to a
replaced connection stays observable. -/

/-- One underlying `WebSocket` object, identified by creation order. -/
structure WSHandle where
  id : Nat
  closed : Bool
  deriving DecidableEq, Repr

/-- State of a `WebSocketService` instance: the stored `this.ws`
reference (by handle id), the ghost list of all handles created, and the
reconnection fields initialised at the declarations in the class body. -/
structure WebSocketService where
  ws : Option Nat
  handles : List WSHandle
  reconnectAttempts : Nat
  maxReconnectAttempts : Nat
  reconnectDelay : Nat
  deriving DecidableEq, Repr

/-- A freshly constructed `new WebSocketService(...)`: no socket yet,
`reconnectAttempts = 0`, `maxReconnectAttempts = 5`, `reconnectDelay = 1000`. -/
def newWebSocketService : WebSocketService :=
  { ws := none
    handles := []
    reconnectAttempts := 0
    maxReconnectAttempts := 5
    reconnectDelay := 1000 }

/-- The observable effect `attemptReconnect` produces: either a
`setTimeout(connect, delayMs)` is scheduled, or the budget is exhausted
and `onError('Failed to reconnect after maximum attempts')` fires. -/
inductive ReconnectAction where
  | scheduleReconnect (delayMs : Nat)
  | reconnectFailure
  deriving DecidableEq, Repr

/-- `WebSocketService.attemptReconnect`: when `reconnectAttempts` is below
`maxReconnectAttempts`, increment the counter and schedule a retry after
`reconnectDelay * reconnectAttempts` (read after the increment); otherwise
surface the failure signal and schedule nothing. -/
def WebSocketService.attemptReconnect (svc : WebSocketService) :
    WebSocketService × ReconnectAction :=
  if svc.reconnectAttempts < svc.maxReconnectAttempts then
    let svc1 := { svc with reconnectAttempts := svc.reconnectAttempts + 1 }
    (svc1, .scheduleReconnect (svc.reconnectDelay * svc1.reconnectAttempts))
  else
    (svc, .reconnectFailure)

/-- The `onopen` handler installed by `connect`: resets
`reconnectAttempts` to 0 (and resolves the pending promise). -/
def WebSocketService.onOpen (svc : WebSocketService) : WebSocketService :=
  { svc with reconnectAttempts := 0 }

/-- The `onclose` handler installed by `connect`: it runs for every close
event of the socket, with no field or flag distinguishing an explicit
`disconnect()` from an unexpected drop, and calls `attemptReconnect`
unconditionally (after the `onDisconnect` UI callback). -/
def WebSocketService.deliverClose (svc : WebSocketService) :
    WebSocketService × ReconnectAction :=
  svc.attemptReconnect

/-- `WebSocketService.connect`: executes `this.ws = new WebSocket(this.url)`
and installs the handlers.  The previous socket, when one exists, is not
closed: only the stored reference is overwritten.  The fresh handle is
appended to the ghost list with `closed := false`. -/
def WebSocketService.connect (svc : WebSocketService) : WebSocketService :=
  { svc with
      ws := some svc.handles.length
      handles := svc.handles ++ [{ id := svc.handles.length, closed := false }] }

/-- Resolution discipline of the promise `connect` returns: `resolve()` is
called inside `onopen`, `reject(error)` inside `onerror` (and on a
constructor throw). -/
inductive PromiseResult where
  | resolved
  | rejected
  deriving DecidableEq, Repr

/-- The promise returned by `connect`, as a function of whether the open
handshake succeeds (`onopen` fires) or the socket errors immediately
(`onerror` fires). -/
def connectResolution (openSucceeds : Bool) : PromiseResult :=
  if openSucceeds then .resolved else .rejected

/-- Mark the handle with the given id closed (the effect of calling
`close()` on that `WebSocket` object). -/
def closeHandle (handles : List WSHandle) (id : Nat) : List WSHandle :=
  handles.map fun h => if h.id = id then { h with closed := true } else h

/-- `WebSocketService.disconnect`: `if (this.ws) { this.ws.close();
this.ws = null; }`.  Calling `close()` makes the socket fire its close
event, so the second component reports whether a close event was emitted
(to be delivered to the installed `onclose` handler, `deliverClose`). -/
def WebSocketService.disconnect (svc : WebSocketService) :
    WebSocketService × Bool :=
  match svc.ws with
  | some id => ({ svc with handles := closeHandle svc.handles id, ws := none }, true)
  | none => (svc, false)

/-- Run `n` consecutive close deliveries (each one invoking the installed
`onclose` handler), collecting the actions they produce in order. -/
def runCloses : Nat → WebSocketService → WebSocketService × List ReconnectAction
  | 0, svc => (svc, [])
  | n + 1, svc =>
      let (svc1, a) := svc.attemptReconnect
      let (svc2, as) := runCloses n svc1
      (svc2, a :: as)

/-! Companion fetch surface: `ApiService` in `services/api.ts`.  Each
static method is a function of the outcome of its `fetch` call: either the
transport failed (the rejection carries a message) or an HTTP response
arrived with an `ok` flag and a parsed JSON body.  The method returns
`Except.error` exactly when it lets a failure propagate to the caller. -/

/-- Outcome of one `fetch` call as the method observes it. -/
inductive FetchOutcome (α : Type) where
  | transportError (msg : String)
  | httpResponse (ok : Bool) (body : α)
  deriving DecidableEq, Repr

/-- Parsed body of the session-start endpoint. -/
structure SessionStartResponse where
  session_id : String
  deriving DecidableEq, Repr

namespace ApiService

/-- `ApiService.getModels`: throws on non-ok, rethrows transport errors,
returns `data.models || []`. -/
def getModels (o : FetchOutcome (Option (List VLMModel))) :
    Except String (List VLMModel) :=
  match o with
  | .transportError msg => .error msg
  | .httpResponse ok body =>
      if ok then .ok (body.getD []) else .error "Failed to fetch models"

/-- `ApiService.getSettings`: throws on non-ok, rethrows transport errors,
returns the parsed JSON (modelled as its raw text). -/
def getSettings (o : FetchOutcome String) : Except String String :=
  match o with
  | .transportError msg => .error msg
  | .httpResponse ok body =>
      if ok then .ok body else .error "Failed to fetch settings"

/-- `ApiService.queryVLM`: single image query; throws on non-ok, rethrows
transport errors, returns the parsed response (modelled as raw text). -/
def queryVLM (o : FetchOutcome String) : Except String String :=
  match o with
  | .transportError msg => .error msg
  | .httpResponse ok body =>
      if ok then .ok body else .error "Failed to query VLM"

/-- `ApiService.queryVLMWithContext`: single image query with temporal
context; throws on non-ok, rethrows transport errors. -/
def queryVLMWithContext (o : FetchOutcome String) : Except String String :=
  match o with
  | .transportError msg => .error msg
  | .httpResponse ok body =>
      if ok then .ok body else .error "Failed to query VLM with context"

/-- `ApiService.startSession`: session lifecycle `start` action; throws on
non-ok, rethrows transport errors. -/
def startSession (o : FetchOutcome SessionStartResponse) :
    Except String SessionStartResponse :=
  match o with
  | .transportError msg => .error msg
  | .httpResponse ok body =>
      if ok then .ok body else .error "Failed to start session"

/-- `ApiService.getSessionStats`: session lifecycle `stats` action; throws
on non-ok, rethrows transport errors, returns `data.stats`. -/
def getSessionStats (o : FetchOutcome SessionStats) :
    Except String SessionStats :=
  match o with
  | .transportError msg => .error msg
  | .httpResponse ok body =>
      if ok then .ok body else .error "Failed to get session stats"

/-- `ApiService.clearSession`: session lifecycle `clear` action; throws on
non-ok, rethrows transport errors. -/
def clearSession (o : FetchOutcome Unit) : Except String Unit :=
  match o with
  | .transportError msg => .error msg
  | .httpResponse ok _ =>
      if ok then .ok () else .error "Failed to clear session"

/-- `ApiService.healthCheck`: the liveness probe.  Returns `response.ok`;
the catch block returns `false` instead of rethrowing, so no failure ever
propagates. -/
def healthCheck (o : FetchOutcome Unit) : Except String Bool :=
  match o with
  | .transportError _ => .ok false
  | .httpResponse ok _ => .ok ok

/-- `ApiService.getContextWindow`: on non-ok it throws, but its own catch
block swallows the error (and any transport error) and returns the
default fallback `10`, so no failure ever propagates. -/
def getContextWindow (o : FetchOutcome Nat) : Except String Nat :=
  match o with
  | .transportError _ => .ok 10
  | .httpResponse ok body =>
      if ok then .ok body else .ok 10

/-- `ApiService.updateContextWindow`: throws on non-ok, rethrows transport
errors. -/
def updateContextWindow (o : FetchOutcome Unit) : Except String Unit :=
  match o with
  | .transportError msg => .error msg
  | .httpResponse ok _ =>
      if ok then .ok () else .error "Failed to update context window"

/-- `ApiService.updateSummaryWindow`: throws on non-ok, rethrows transport
errors. -/
def updateSummaryWindow (o : FetchOutcome Unit) : Except String Unit :=
  match o with
  | .transportError msg => .error msg
  | .httpResponse ok _ =>
      if ok then .ok () else .error "Failed to update summary window"

/-- `ApiService.updateWindows`: throws on non-ok, rethrows transport
errors. -/
def updateWindows (o : FetchOutcome Unit) : Except String Unit :=
  match o with
  | .transportError msg => .error msg
  | .httpResponse ok _ =>
      if ok then .ok () else .error "Failed to update windows"

end ApiService

/-! Camera capture: `captureFrame` in `hooks/useCamera.ts`.  The hook's
environment at call time: which refs are populated, the streaming flag,
whether `getContext` returns a context, whether `drawImage`/`toDataURL`
throws, and the data URL `toDataURL` yields.  Strings are modelled at the
character-list level so that the JavaScript `split` can be stated. -/

/-- Environment `captureFrame` runs in. -/
structure CanvasEnv where
  hasVideo : Bool
  hasCanvas : Bool
  isStreaming : Bool
  hasContext : Bool
  drawOrEncodeThrows : Bool
  dataUrl : List Char
  deriving DecidableEq, Repr

/-- JavaScript `String.prototype.split` with a one-character separator,
over character lists. -/
def jsSplit (c : Char) : List Char → List (List Char)
  | [] => [[]]
  | x :: xs =>
      match jsSplit c xs with
      | [] => [[]]
      | r :: rs => if x = c then [] :: r :: rs else (x :: r) :: rs

/-- `captureFrame`: returns `null` when a ref is missing or the camera is
not streaming; inside the try block, returns `null` when the 2D context is
unavailable or when drawing/encoding throws; otherwise returns
`toDataURL('image/jpeg', 0.8).split(',')[1]`. -/
def captureFrame (env : CanvasEnv) : Option (List Char) :=
  if !env.hasVideo || !env.hasCanvas || !env.isStreaming then
    none
  else if !env.hasContext then
    none
  else if env.drawOrEncodeThrows then
    none
  else
    (jsSplit ',' env.dataUrl).get? 1

/-! Concrete fixtures used by witnesses and counterexamples. -/

/-- A sample temporal context payload. -/
def tc0 : TemporalContext :=
  { recent_responses := ["a desk with a laptop"], last_update := "t0" }

/-- A sample frame record. -/
def f0 : FrameData :=
  { timestamp := "t0"
    frame_id := "0"
    response := "a desk"
    model := "gemini-1.5-flash"
    processing_time := 1
    prompt := "What do you see in this image?"
    detected_objects := []
    temporal_context := none }

/-- A sample successful `vlm_response` payload. -/
def dSucc : VlmResponseData :=
  { success := true
    frame_id := "7"
    response := "a person waves"
    model := "gemini-1.5-flash"
    processing_time := 2
    prompt := "What do you see in this image?"
    temporal_context := some tc0
    error := none }

/-- A sample failed `vlm_response` payload. -/
def dFail : VlmResponseData :=
  { success := false
    frame_id := "8"
    response := ""
    model := "gemini-1.5-flash"
    processing_time := 0
    prompt := "What do you see in this image?"
    temporal_context := none
    error := some "rate limited" }

/-- A sample capture environment whose data URL is well formed. -/
def env0 : CanvasEnv :=
  { hasVideo := true
    hasCanvas := true
    isStreaming := true
    hasContext := true
    drawOrEncodeThrows := false
    dataUrl := "data:image/jpeg;base64".toList ++ ',' :: "QUJD".toList }

/-! Helper lemmas shared by the claim theorems. -/

/-- The history after any `addFrame` never exceeds 50 records. -/
lemma addFrame_length_le (s : AppState) (f : FrameData) :
    (addFrame s f).frameHistory.length ≤ 50 := by
  simp only [addFrame, sliceLast, List.length_drop]
  omega

/-- The history length bound is preserved along any sequence of
`addFrame` calls. -/
lemma foldl_addFrame_length (frames : List FrameData) (s : AppState)
    (h : s.frameHistory.length ≤ 50) :
    (frames.foldl addFrame s).frameHistory.length ≤ 50 := by
  induction frames generalizing s with
  | nil => exact h
  | cons f fs ih => exact ih _ (addFrame_length_le s f)

/-- Below the cap, `addFrame` is a plain append. -/
lemma addFrame_eq_append (s : AppState) (f : FrameData)
    (h : s.frameHistory.length < 50) :
    (addFrame s f).frameHistory = s.frameHistory ++ [f] := by
  simp only [addFrame, sliceLast]
  have h0 : (s.frameHistory ++ [f]).length - 50 = 0 := by
    simp only [List.length_append, List.length_singleton]
    omega
  rw [h0, List.drop_zero]

/-- At the cap, `addFrame` drops exactly the oldest record. -/
lemma addFrame_eq_tail_append (s : AppState) (f : FrameData)
    (h : s.frameHistory.length = 50) :
    (addFrame s f).frameHistory = s.frameHistory.tail ++ [f] := by
  simp only [addFrame, sliceLast]
  have h1 : (s.frameHistory ++ [f]).length - 50 = 1 := by
    simp only [List.length_append, List.length_singleton]
    omega
  rw [h1]
  cases hs : s.frameHistory with
  | nil => simp [hs] at h
  | cons a t => simp

/-- C2: for every sequence of `addFrame` calls from the initial store, the
frame history never exceeds the cap of 50 records; when the cap is
reached a new append evicts exactly the oldest record (strictly FIFO,
surviving records kept in insertion order), and below the cap an append
is a plain append. -/
theorem frameHistory_cap_fifo (frames : List FrameData) (f : FrameData) :
    (frames.foldl addFrame initialState).frameHistory.length ≤ 50 ∧
    ((frames.foldl addFrame initialState).frameHistory.length = 50 →
      (addFrame (frames.foldl addFrame initialState) f).frameHistory =
        (frames.foldl addFrame initialState).frameHistory.tail ++ [f]) ∧
    ((frames.foldl addFrame initialState).frameHistory.length < 50 →
      (addFrame (frames.foldl addFrame initialState) f).frameHistory =
        (frames.foldl addFrame initialState).frameHistory ++ [f]) := by
  refine ⟨foldl_addFrame_length frames initialState (by simp [initialState]), ?_, ?_⟩
  · intro h
    exact addFrame_eq_tail_append _ f h
  · intro h
    exact addFrame_eq_append _ f h

set_option maxRecDepth 20000 in
/-- Witness for C2 at a concrete run: fifty appends fill the history to
exactly the cap, and the fifty-first evicts the oldest record. -/
theorem frameHistory_cap_fifo_witness :
    ((List.replicate 50 f0).foldl addFrame initialState).frameHistory.length = 50 ∧
    (addFrame ((List.replicate 50 f0).foldl addFrame initialState) f0).frameHistory =
      ((List.replicate 50 f0).foldl addFrame initialState).frameHistory.tail ++ [f0] :=
  ⟨by decide, (frameHistory_cap_fifo (List.replicate 50 f0) f0).2.1 (by decide)⟩

/-- C8: `handleStopAnalysis` is idempotent: applying the stop command
twice yields the same store state as applying it once, for every starting
state. -/
theorem stopAnalysis_idempotent (s : AppState) :
    handleStopAnalysis (handleStopAnalysis s) = handleStopAnalysis s := rfl

/-- C5 counterexample: the clear command does not disarm the pacer.  From
a state where streaming is armed, `handleClearHistory` leaves
`isStreaming` (and `isProcessing`) true, so the pacer interval keeps
firing; the claim says reset disarms the pacer. -/
theorem clearHistory_keeps_pacer_armed_cex :
    (handleClearHistory
        (setProcessingStatus true (setStreamingStatus true initialState))).isStreaming
        = true ∧
    (handleClearHistory
        (setProcessingStatus true (setStreamingStatus true initialState))).isProcessing
        = true := ⟨rfl, rfl⟩

/-- C5 amended: `handleClearHistory` empties the frame history, nulls the
temporal context (and session stats), and leaves the session id, the
connection state, the settings, and also the pacer state
(`isStreaming`/`isProcessing`) unchanged — it does not disarm the pacer. -/
theorem clearHistory_effects (s : AppState) :
    (handleClearHistory s).frameHistory = [] ∧
    (handleClearHistory s).temporalContext = none ∧
    (handleClearHistory s).sessionStats = none ∧
    (handleClearHistory s).currentSession = s.currentSession ∧
    (handleClearHistory s).isConnected = s.isConnected ∧
    (handleClearHistory s).isStreaming = s.isStreaming ∧
    (handleClearHistory s).isProcessing = s.isProcessing ∧
    (handleClearHistory s).settings = s.settings :=
  ⟨rfl, rfl, rfl, rfl, rfl, rfl, rfl, rfl⟩

/-- C3 counterexample: a successful `vlm_response` does not clear a
transient error.  Starting from a state whose error banner is set, the
handler leaves it set; the claim says success clears any transient
error. -/
theorem vlmResponse_error_not_cleared_cex :
    (handleVlmResponse "t1" dSucc (setError (some "stale error") initialState)).error
      = some "stale error" := rfl

/-- C3 amended: on a successful `vlm_response` the handler appends a
FrameRecord, replaces the temporal context wholesale, and clears the
in-flight flag, but leaves any transient error unchanged; on a failed
response it surfaces the error (falling back to a default message) and
still clears the in-flight flag, leaving history and context untouched. -/
theorem vlmResponse_effects (now : String) (d : VlmResponseData) (s : AppState) :
    (handleVlmResponse now d s).isProcessing = false ∧
    (d.success = true →
      (handleVlmResponse now d s).frameHistory =
        sliceLast 50 (s.frameHistory ++ [frameOfResponse now d]) ∧
      (handleVlmResponse now d s).temporalContext = d.temporal_context ∧
      (handleVlmResponse now d s).error = s.error) ∧
    (d.success = false →
      (handleVlmResponse now d s).error =
        some (jsOrString d.error "VLM query failed") ∧
      (handleVlmResponse now d s).frameHistory = s.frameHistory ∧
      (handleVlmResponse now d s).temporalContext = s.temporalContext) := by
  cases hd : d.success <;>
    simp [handleVlmResponse, hd, addFrame, setTemporalContext, setError,
      setProcessingStatus]

/-- Witness for C3 at concrete payloads: a successful response appends
and replaces context while keeping the (empty) error, and a failed
response surfaces its error message. -/
theorem vlmResponse_effects_witness :
    (handleVlmResponse "t1" dSucc initialState).isProcessing = false ∧
    (handleVlmResponse "t1" dSucc initialState).frameHistory =
      sliceLast 50 (initialState.frameHistory ++ [frameOfResponse "t1" dSucc]) ∧
    (handleVlmResponse "t1" dSucc initialState).temporalContext =
      dSucc.temporal_context ∧
    (handleVlmResponse "t1" dSucc initialState).error = initialState.error ∧
    (handleVlmResponse "t1" dFail initialState).error =
      some (jsOrString dFail.error "VLM query failed") := by
  have hs := vlmResponse_effects "t1" dSucc initialState
  have hf := vlmResponse_effects "t1" dFail initialState
  have hs1 := hs.2.1 (by decide)
  exact ⟨hs.1, hs1.1, hs1.2.1, hs1.2.2, (hf.2.2 (by decide)).1⟩

/-- The ghost count of outstanding queries always equals 1 when the
in-flight flag is set and 0 when it is clear; one trace step preserves
this. -/
lemma traceStep_outstanding (p : AppState × Nat) (e : StreamEvent)
    (h : p.2 = if p.1.isProcessing then 1 else 0) :
    (traceStep p e).2 = if (traceStep p e).1.isProcessing then 1 else 0 := by
  obtain ⟨s, out⟩ := p
  cases e with
  | tick wsP frame =>
      by_cases hp : s.isProcessing
      · simp [traceStep, pacerTick, hp, h]
      · cases frame <;> cases wsP <;>
          simp_all [traceStep, pacerTick, setProcessingStatus]
  | response now d =>
      by_cases hp : s.isProcessing <;>
        simp_all [traceStep, handleVlmResponse, setProcessingStatus]

/-- The occupancy invariant holds after running any streaming trace. -/
lemma runTrace_outstanding (events : List StreamEvent) (p : AppState × Nat)
    (h : p.2 = if p.1.isProcessing then 1 else 0) :
    (runTrace p events).2 = if (runTrace p events).1.isProcessing then 1 else 0 := by
  induction events generalizing p with
  | nil => exact h
  | cons e es ih => exact ih (traceStep p e) (traceStep_outstanding p e h)

/-- C1: over every trace of pacer ticks and inbound `vlm_response`
messages from the initial state, at most one analysis query is ever
outstanding; a tick sends a new `vlm_query` only when the in-flight flag
is clear, the flag is set by the time the send happens, a tick never
clears an already-set flag, and the handler for a response (success or
failure) clears it. -/
theorem single_inflight_query (events : List StreamEvent) (s : AppState)
    (wsPresent : Bool) (frame : Option String) (now : String)
    (d : VlmResponseData) :
    (runTrace (initialState, 0) events).2 ≤ 1 ∧
    ((pacerTick wsPresent frame s).2 = true →
      s.isProcessing = false ∧ (pacerTick wsPresent frame s).1.isProcessing = true) ∧
    (s.isProcessing = true → (pacerTick wsPresent frame s).1.isProcessing = true) ∧
    (handleVlmResponse now d s).isProcessing = false := by
  refine ⟨?_, ?_, ?_, rfl⟩
  · have h := runTrace_outstanding events (initialState, 0) rfl
    rw [h]
    split <;> omega
  · intro hsent
    by_cases hp : s.isProcessing
    · simp [pacerTick, hp] at hsent
    · cases frame with
      | none => simp [pacerTick, hp] at hsent
      | some img =>
          cases wsPresent with
          | false => simp [pacerTick, hp] at hsent
          | true =>
              simp only [Bool.not_eq_true] at hp
              exact ⟨hp, by simp [pacerTick, hp, setProcessingStatus]⟩
  · intro hp
    simp [pacerTick, hp]

/-- Witness for C1: a concrete trace (a tick that sends, a tick skipped
while in flight, the response, a fresh tick) keeps the outstanding count
at most 1, and the step properties hold at concrete states. -/
theorem single_inflight_query_witness :
    (runTrace (initialState, 0)
        [.tick true (some "img1"), .tick true (some "img2"),
         .response "t1" dSucc, .tick true (some "img3")]).2 ≤ 1 ∧
    (initialState.isProcessing = false ∧
      (pacerTick true (some "img1") initialState).1.isProcessing = true) ∧
    (pacerTick true (some "img1")
        (setProcessingStatus true initialState)).1.isProcessing = true ∧
    (handleVlmResponse "t1" dSucc initialState).isProcessing = false := by
  have h1 := single_inflight_query
    [.tick true (some "img1"), .tick true (some "img2"),
     .response "t1" dSucc, .tick true (some "img3")]
    initialState true (some "img1") "t1" dSucc
  have h2 := single_inflight_query [] (setProcessingStatus true initialState)
    true (some "img1") "t1" dSucc
  exact ⟨h1.1, h1.2.1 (by decide), h2.2.2.1 (by decide), h1.2.2.2⟩

/-- Consecutive close deliveries below the budget each increment the
attempt counter and leave the constant fields alone. -/
lemma runCloses_attempts (n : Nat) (svc : WebSocketService)
    (h : svc.reconnectAttempts + n ≤ svc.maxReconnectAttempts) :
    (runCloses n svc).1.reconnectAttempts = svc.reconnectAttempts + n ∧
    (runCloses n svc).1.maxReconnectAttempts = svc.maxReconnectAttempts ∧
    (runCloses n svc).1.reconnectDelay = svc.reconnectDelay := by
  induction n generalizing svc with
  | zero => exact ⟨rfl, rfl, rfl⟩
  | succ n ih =>
      have hlt : svc.reconnectAttempts < svc.maxReconnectAttempts := by omega
      have step :
          svc.attemptReconnect =
            ({ svc with reconnectAttempts := svc.reconnectAttempts + 1 },
              .scheduleReconnect
                (svc.reconnectDelay * (svc.reconnectAttempts + 1))) := by
        simp [WebSocketService.attemptReconnect, hlt]
      have ihh := ih { svc with reconnectAttempts := svc.reconnectAttempts + 1 }
        (by simp; omega)
      simp only [runCloses, step]
      refine ⟨?_, ?_, ?_⟩
      · rw [ihh.1]; simp; omega
      · rw [ihh.2.1]
      · rw [ihh.2.2]

/-- C4: from a fresh transport, the n-th consecutive close delivery (for
1 ≤ n ≤ 5) schedules the next reconnect after exactly
`reconnectDelay * n = 1000·n` milliseconds (linear backoff) and leaves
the attempt counter at n; a run of six consecutive closes produces the
five linearly spaced schedules followed by exactly one failure signal and
schedules nothing further; a successful open resets the counter to
zero. -/
theorem reconnect_linear_backoff (n : Nat) (h1 : 1 ≤ n) (h5 : n ≤ 5) :
    ((runCloses (n - 1) newWebSocketService).1.attemptReconnect).2 =
      .scheduleReconnect (1000 * n) ∧
    ((runCloses (n - 1) newWebSocketService).1.attemptReconnect).1.reconnectAttempts
      = n ∧
    (runCloses 6 newWebSocketService).2 =
      [.scheduleReconnect 1000, .scheduleReconnect 2000, .scheduleReconnect 3000,
       .scheduleReconnect 4000, .scheduleReconnect 5000, .reconnectFailure] ∧
    (∀ svc : WebSocketService, (svc.onOpen).reconnectAttempts = 0) := by
  obtain ⟨ha, hm, hd⟩ := runCloses_attempts (n - 1) newWebSocketService
    (by simp [newWebSocketService]; omega)
  have ha0 : (runCloses (n - 1) newWebSocketService).1.reconnectAttempts = n - 1 := by
    rw [ha]; simp [newWebSocketService]
  have hm5 : (runCloses (n - 1) newWebSocketService).1.maxReconnectAttempts = 5 := by
    rw [hm]; rfl
  have hd1000 : (runCloses (n - 1) newWebSocketService).1.reconnectDelay = 1000 := by
    rw [hd]; rfl
  have he : n - 1 + 1 = n := by omega
  refine ⟨?_, ?_, by decide, fun svc => rfl⟩
  · simp only [WebSocketService.attemptReconnect, ha0, hm5, hd1000, he]
    rw [if_pos (show n - 1 < 5 by omega)]
  · simp only [WebSocketService.attemptReconnect, ha0, hm5, hd1000, he]
    rw [if_pos (show n - 1 < 5 by omega)]

/-- Witness for C4 at n = 3: the third consecutive close schedules a
retry after 3000 ms with the counter at 3; the six-close run and the
open-handler reset are checked concretely. -/
theorem reconnect_linear_backoff_witness :
    ((runCloses 2 newWebSocketService).1.attemptReconnect).2 =
      .scheduleReconnect 3000 ∧
    ((runCloses 2 newWebSocketService).1.attemptReconnect).1.reconnectAttempts = 3 ∧
    (runCloses 6 newWebSocketService).2 =
      [.scheduleReconnect 1000, .scheduleReconnect 2000, .scheduleReconnect 3000,
       .scheduleReconnect 4000, .scheduleReconnect 5000, .reconnectFailure] ∧
    (newWebSocketService.onOpen).reconnectAttempts = 0 := by
  have h := reconnect_linear_backoff 3 (by decide) (by decide)
  exact ⟨h.1, h.2.1, h.2.2.1, h.2.2.2 newWebSocketService⟩

/-- C9: an explicit `disconnect()` does not suppress the reconnection
machinery.  When a socket is present, `disconnect` closes it, which emits
a close event; the installed `onclose` handler (`deliverClose`, the same
for every close cause) invokes `attemptReconnect`, which schedules a new
attempt whenever the counter is below the maximum — with the linear delay
for the next attempt number. -/
theorem disconnect_triggers_reconnect (svc : WebSocketService)
    (h : svc.ws.isSome = true) :
    (svc.disconnect).2 = true ∧
    (svc.disconnect).1.reconnectAttempts = svc.reconnectAttempts ∧
    (svc.reconnectAttempts < svc.maxReconnectAttempts →
      ((svc.disconnect).1.deliverClose).2 =
        .scheduleReconnect (svc.reconnectDelay * (svc.reconnectAttempts + 1))) := by
  cases hws : svc.ws with
  | none => rw [hws] at h; simp at h
  | some id =>
      refine ⟨?_, ?_, ?_⟩
      · simp [WebSocketService.disconnect, hws]
      · simp [WebSocketService.disconnect, hws]
      · intro hlt
        simp [WebSocketService.disconnect, hws,
          WebSocketService.deliverClose, WebSocketService.attemptReconnect, hlt]

/-- Witness for C9: after a fresh `connect`, calling `disconnect` emits a
close event whose delivery schedules a reconnect attempt after 1000 ms. -/
theorem disconnect_triggers_reconnect_witness :
    ((newWebSocketService.connect).disconnect).2 = true ∧
    (((newWebSocketService.connect).disconnect).1.deliverClose).2 =
      .scheduleReconnect 1000 := by
  have h := disconnect_triggers_reconnect (newWebSocketService.connect) (by decide)
  exact ⟨h.1, by simpa using h.2.2 (by decide)⟩

/-- C6 counterexample: calling `connect()` while a connection exists does
not tear the old one down.  After a second `connect` on a service whose
first connection is still live, neither handle has ever been closed (a
teardown would have marked the first one closed). -/
theorem connect_no_teardown_cex :
    ((newWebSocketService.connect).connect).handles.map WSHandle.closed =
      [false, false] ∧
    ((newWebSocketService.connect).connect).ws = some 1 := ⟨rfl, rfl⟩

/-- C6 amended: `connect()` while a connection exists replaces the stored
reference with a fresh open socket and leaves every previously created
handle untouched (the old connection is not closed); the returned promise
resolves on a successful open handshake (`onopen`) and rejects on
immediate failure (`onerror`). -/
theorem connect_replaces_reference (svc : WebSocketService) (h : WSHandle)
    (hm : h ∈ svc.handles) :
    (svc.connect).handles =
      svc.handles ++ [{ id := svc.handles.length, closed := false }] ∧
    (svc.connect).ws = some svc.handles.length ∧
    h ∈ (svc.connect).handles ∧
    connectResolution true = PromiseResult.resolved ∧
    connectResolution false = PromiseResult.rejected := by
  refine ⟨rfl, rfl, ?_, rfl, rfl⟩
  simp only [WebSocketService.connect, List.mem_append]
  exact Or.inl hm

/-- Witness for C6: a second `connect` keeps the first, still-open handle
in the list and points the reference at the fresh handle. -/
theorem connect_replaces_reference_witness :
    ((newWebSocketService.connect).connect).ws = some 1 ∧
    ({ id := 0, closed := false } : WSHandle) ∈
      ((newWebSocketService.connect).connect).handles ∧
    connectResolution true = PromiseResult.resolved ∧
    connectResolution false = PromiseResult.rejected := by
  have h := connect_replaces_reference (newWebSocketService.connect)
    { id := 0, closed := false } (by decide)
  exact ⟨h.2.1, h.2.2.1, h.2.2.2.1, h.2.2.2.2⟩

/-- C7 counterexample: `getContextWindow` does not propagate failures.
On a transport failure (and likewise on a non-2xx response) its catch
block swallows the error and returns the default `10`; the claim says
every method of the fetch surface propagates such failures. -/
theorem getContextWindow_swallows_failure_cex :
    ApiService.getContextWindow (.transportError "network unreachable") =
      .ok 10 ∧
    ApiService.getContextWindow (.httpResponse false 0) = .ok 10 ∧
    ApiService.healthCheck (.transportError "network unreachable") = .ok false :=
  ⟨rfl, rfl, rfl⟩

/-- C7 amended: every method of the fetch surface propagates a failure to
its caller on a non-2xx response or a transport failure, except the
liveness probe `healthCheck`, which returns `false` instead, and
`getContextWindow`, which returns the default fallback `10` instead. -/
theorem api_failure_propagation (msg : String)
    (models : Option (List VLMModel)) (raw : String)
    (sess : SessionStartResponse) (stats : SessionStats) (n : Nat) :
    ApiService.getModels (.transportError msg) = .error msg ∧
    ApiService.getModels (.httpResponse false models) =
      .error "Failed to fetch models" ∧
    ApiService.getSettings (.transportError msg) = .error msg ∧
    ApiService.getSettings (.httpResponse false raw) =
      .error "Failed to fetch settings" ∧
    ApiService.queryVLM (.transportError msg) = .error msg ∧
    ApiService.queryVLM (.httpResponse false raw) =
      .error "Failed to query VLM" ∧
    ApiService.queryVLMWithContext (.transportError msg) = .error msg ∧
    ApiService.queryVLMWithContext (.httpResponse false raw) =
      .error "Failed to query VLM with context" ∧
    ApiService.startSession (.transportError msg) = .error msg ∧
    ApiService.startSession (.httpResponse false sess) =
      .error "Failed to start session" ∧
    ApiService.getSessionStats (.transportError msg) = .error msg ∧
    ApiService.getSessionStats (.httpResponse false stats) =
      .error "Failed to get session stats" ∧
    ApiService.clearSession (.transportError msg) = .error msg ∧
    ApiService.clearSession (.httpResponse false ()) =
      .error "Failed to clear session" ∧
    ApiService.updateContextWindow (.transportError msg) = .error msg ∧
    ApiService.updateContextWindow (.httpResponse false ()) =
      .error "Failed to update context window" ∧
    ApiService.updateSummaryWindow (.transportError msg) = .error msg ∧
    ApiService.updateSummaryWindow (.httpResponse false ()) =
      .error "Failed to update summary window" ∧
    ApiService.updateWindows (.transportError msg) = .error msg ∧
    ApiService.updateWindows (.httpResponse false ()) =
      .error "Failed to update windows" ∧
    ApiService.healthCheck (.transportError msg) = .ok false ∧
    (∀ ok : Bool, ApiService.healthCheck (.httpResponse ok ()) = .ok ok) ∧
    ApiService.getContextWindow (.transportError msg) = .ok 10 ∧
    ApiService.getContextWindow (.httpResponse false n) = .ok 10 :=
  ⟨rfl, rfl, rfl, rfl, rfl, rfl, rfl, rfl, rfl, rfl, rfl, rfl, rfl, rfl, rfl,
   rfl, rfl, rfl, rfl, rfl, rfl, fun _ => rfl, rfl, rfl⟩

/-- The split of a list that does not contain the separator is the whole
list as a single segment. -/
lemma jsSplit_of_not_mem (c : Char) (l : List Char) (h : c ∉ l) :
    jsSplit c l = [l] := by
  induction l with
  | nil => rfl
  | cons x xs ih =>
      have hx : ¬(x = c) := fun e => h (by simp [e])
      have hxs : c ∉ xs := fun hc => h (List.mem_cons_of_mem _ hc)
      simp [jsSplit, ih hxs, hx]

/-- The split of a list is never empty. -/
lemma jsSplit_ne_nil (c : Char) (l : List Char) : jsSplit c l ≠ [] := by
  cases l with
  | nil => simp [jsSplit]
  | cons x xs =>
      simp only [jsSplit]
      rcases h : jsSplit c xs with _ | ⟨r, rs⟩ <;> simp only [h] <;>
        first
        | (split <;> simp)
        | simp

/-- Splitting at the first separator occurrence yields the part before it
as the first segment. -/
lemma jsSplit_first (c : Char) (pre post : List Char) (hpre : c ∉ pre) :
    jsSplit c (pre ++ c :: post) = pre :: jsSplit c post := by
  induction pre with
  | nil =>
      simp only [List.nil_append, jsSplit]
      cases h : jsSplit c post with
      | nil => exact absurd h (jsSplit_ne_nil c post)
      | cons r rs => simp
  | cons x xs ih =>
      have hx : ¬(x = c) := fun e => hpre (by simp [e])
      have hxs : c ∉ xs := fun hc => hpre (List.mem_cons_of_mem _ hc)
      rw [List.cons_append]
      simp only [jsSplit, ih hxs]
      simp [hx]

/-- C10: `captureFrame` is a total function that never throws: it returns
`null` when the video or canvas ref is absent, the camera is not
streaming, the 2D context is unavailable, or drawing/encoding throws; and
otherwise it returns the base64 JPEG payload, i.e. the data URL with its
comma-delimited prefix stripped. -/
theorem captureFrame_behaviour (env : CanvasEnv) (pre pay : List Char)
    (hurl : env.dataUrl = pre ++ ',' :: pay)
    (hpre : ',' ∉ pre) (hpay : ',' ∉ pay) :
    ((env.hasVideo = false ∨ env.hasCanvas = false ∨ env.isStreaming = false) →
      captureFrame env = none) ∧
    (env.hasContext = false → captureFrame env = none) ∧
    (env.drawOrEncodeThrows = true → captureFrame env = none) ∧
    (env.hasVideo = true → env.hasCanvas = true → env.isStreaming = true →
      env.hasContext = true → env.drawOrEncodeThrows = false →
      captureFrame env = some pay) := by
  refine ⟨?_, ?_, ?_, ?_⟩
  · rintro (h | h | h) <;> simp [captureFrame, h]
  · intro h
    simp only [captureFrame, h]
    split <;> simp
  · intro h
    simp only [captureFrame, h]
    split <;> [rfl; skip]
    split <;> [rfl; rfl]
  · intro h1 h2 h3 h4 h5
    simp only [captureFrame, h1, h2, h3, h4, h5, Bool.not_true, Bool.not_false,
      Bool.false_or, Bool.or_false, Bool.or_self, if_neg, ite_false, ite_true]
    rw [hurl, jsSplit_first ',' pre pay hpre, jsSplit_of_not_mem ',' pay hpay]
    rfl

/-- Witness for C10: in a healthy environment with the data URL
`data:image/jpeg;base64,QUJD`, the capture returns the payload `QUJD`;
with the camera not streaming it returns `null`. -/
theorem captureFrame_behaviour_witness :
    captureFrame env0 = some "QUJD".toList ∧
    captureFrame { env0 with isStreaming := false } = none := by
  have h := captureFrame_behaviour env0 "data:image/jpeg;base64".toList
    "QUJD".toList rfl (by decide) (by decide)
  have h2 := captureFrame_behaviour { env0 with isStreaming := false }
    "data:image/jpeg;base64".toList "QUJD".toList rfl (by decide) (by decide)
  exact ⟨h.2.2.2 rfl rfl rfl rfl rfl, h2.1 (Or.inr (Or.inr rfl))⟩

end StreamVLM
